import Mathlib

/-!
Verification of the upload-workflow controller in `form-app/app.py`.

The app is a Streamlit script that reruns top-to-bottom on each user
interaction.  We embed it shallowly:

* Python strings are `PyStr := List Char`; `str.strip()` is `pyStrip`,
  `str.split(".")` is `splitDot`.
* The remote SDK calls (`w.volumes.read`, `w.current_user.me`,
  `w.grants.get_effective`, `w.files.upload`, `sql` statement execution,
  `sql.connect`) are modelled by an environment that supplies each call's
  outcome: a normal result or a raised exception (`Except PyStr _`, the
  error carrying the exception's string rendering).
* One user interaction (a button press, or a plain rerender) is one
  `Event`; `runEvent` is the effect of one script run on the Streamlit
  session state, together with the list of remote calls the run issues.
* `runTrace` folds `runEvent` over a whole UI session.
-/

/-- Python strings, embedded as lists of characters. -/
abbrev PyStr := List Char

/-- Coerce a Lean string literal to the `PyStr` embedding. -/
def str (s : String) : PyStr := s.data

/-- Python `str.strip()`: drop whitespace from both ends. -/
def pyStrip (l : PyStr) : PyStr :=
  ((l.dropWhile Char.isWhitespace).reverse.dropWhile Char.isWhitespace).reverse

/-- Python `str.split(".")`: split on every dot, keeping empty segments,
with `split` of the empty string being `[""]`. -/
def splitDot : PyStr → List PyStr
  | [] => [[]]
  | c :: rest =>
    if c = '.' then [] :: splitDot rest
    else
      match splitDot rest with
      | [] => [[c]]
      | seg :: segs => (c :: seg) :: segs

/-- The value of a catalog privilege enum member (`privilege.value`). -/
structure PrivEnum where
  value : PyStr
deriving DecidableEq, Repr

/-- One privilege entry of a privilege assignment (`privilege.privilege`). -/
structure Privilege where
  privilege : PrivEnum
deriving DecidableEq, Repr

/-- One entry of `grants.privilege_assignments`. -/
structure PrivilegeAssignment where
  privileges : List Privilege
deriving DecidableEq, Repr

/-- The response of `w.grants.get_effective`; `privilege_assignments` may be
absent (`None`) as well as empty. -/
structure EffectiveGrants where
  privilege_assignments : Option (List PrivilegeAssignment)
deriving DecidableEq, Repr

/-- The response of `w.volumes.read`. -/
structure Volume where
  full_name : PyStr
deriving DecidableEq, Repr

/-- The response of `w.current_user.me`. -/
structure User where
  user_name : PyStr
deriving DecidableEq, Repr

/-- Outcomes of the three remote calls made by `check_upload_permissions`:
each is either a value or a raised exception rendered as a string. -/
structure CheckEnv where
  volume_read : PyStr → Except PyStr Volume
  current_user : Except PyStr User
  grants : Except PyStr (Option EffectiveGrants)

/-- The exact success message of `check_upload_permissions`. -/
def validatedMsg : PyStr := str "Volume and permissions validated"

/-- The denial message when no grants are found for the principal. -/
def noGrantsMsg (u : User) : PyStr :=
  str "Insufficient permissions: No grants found for " ++ u.user_name ++ str "."

/-- The denial message when grants exist but none is write-capable. -/
def notFoundMsg : PyStr := str "Insufficient permissions: Required privileges not found."

/-- Does a privilege's value make it write-capable for the check
(`privilege.privilege.value in ["ALL_PRIVILEGES", "WRITE_VOLUME"]`)? -/
def isWritePriv (p : Privilege) : Bool :=
  p.privilege.value = str "ALL_PRIVILEGES" ∨ p.privilege.value = str "WRITE_VOLUME"

/-- `check_upload_permissions` from `app.py`: reads the volume, resolves the
current user, fetches effective grants, and scans the assignments for a
write-capable privilege; every exception is caught and rendered as
`"Error: {e}"`. -/
def check_upload_permissions (env : CheckEnv) (volume_name : PyStr) : PyStr :=
  match env.volume_read volume_name with
  | .error e => str "Error: " ++ e
  | .ok _volume =>
    match env.current_user with
    | .error e => str "Error: " ++ e
    | .ok current_user =>
      match env.grants with
      | .error e => str "Error: " ++ e
      | .ok grants =>
        match grants with
        | none => noGrantsMsg current_user
        | some g =>
          match g.privilege_assignments with
          | none => noGrantsMsg current_user
          | some [] => noGrantsMsg current_user
          | some assignments =>
            if assignments.any fun assignment =>
                assignment.privileges.any fun privilege => isWritePriv privilege
            then validatedMsg
            else notFoundMsg

/-- The record stored in `st.session_state.upload_details` on a successful
upload. -/
structure UploadDetails where
  catalog : PyStr
  schema : PyStr
  volume_name : PyStr
  file_name : PyStr
  volume_file_path : PyStr
deriving DecidableEq, Repr

/-- The Streamlit session state the app reads and writes:
`volume_check_success`, `file_upload` (absent modelled as `false`, matching
its lazy initialisation to `False`), and `upload_details` (absent modelled
as `none`). -/
structure SessionState where
  volume_check_success : Bool
  file_upload : Bool
  upload_details : Option UploadDetails
deriving DecidableEq, Repr

/-- The session state at the start of a UI session. -/
def initialState : SessionState :=
  { volume_check_success := false, file_upload := false, upload_details := none }

/-- The remote calls a script run can issue whose presence the spec reasons
about: the file transfer and the SQL statement executions. -/
inductive RemoteCall where
  | filesUpload (path : PyStr) (overwrite : Bool)
  | sqlExec (stmt : PyStr)
deriving DecidableEq, Repr

/-- One user interaction: a press of one of the three buttons (with the
current contents of the relevant text widgets), or a plain rerender. -/
inductive Event where
  | checkButton (upload_volume_path : PyStr)
  | uploadButton (upload_volume_path : PyStr) (file_name : PyStr)
  | createTableButton (table_name_input : PyStr)
  | rerun
deriving Repr

/-- Outcomes of all remote calls a single script run may perform. -/
structure Env where
  check : CheckEnv
  uploadResult : Except PyStr Unit
  connect : Except PyStr Unit
  sqlExec : PyStr → Except PyStr Unit

/-- The remote path built by the upload handler:
`f"/Volumes/{catalog}/{schema}/{volume_name}/{file_name}"`. -/
def volume_file_path (catalog schema volume_name file_name : PyStr) : PyStr :=
  str "/Volumes/" ++ catalog ++ str "/" ++ schema ++ str "/" ++ volume_name ++
    str "/" ++ file_name

/-- `query1` of `create_table_from_volume_file`, with the f-string's exact
text. -/
def query1 (catalog schema table_name : PyStr) : PyStr :=
  str "\n        CREATE TABLE IF NOT EXISTS " ++ catalog ++ str "." ++ schema ++
    str "." ++ table_name ++ str "\n        USING DELTA;\n        "

/-- `query2` of `create_table_from_volume_file`, with the f-string's exact
text. -/
def query2 (catalog schema volume_name file_name table_name : PyStr) : PyStr :=
  str "COPY INTO " ++ catalog ++ str "." ++ schema ++ str "." ++ table_name ++
    str "\n        FROM '/Volumes/" ++ catalog ++ str "/" ++ schema ++ str "/" ++
    volume_name ++ str "/" ++ file_name ++
    str "'\n        FILEFORMAT = CSV\n        FORMAT_OPTIONS ('header' = 'true', 'inferSchema' = 'true')\n        COPY_OPTIONS ('mergeSchema' = 'true');\n        "

/-- `create_table_from_volume_file` issues its statements through one cursor
in textual order; we embed it as the ordered list of SQL texts it submits. -/
def create_table_from_volume_file
    (catalog schema volume_name file_name table_name : PyStr) : List PyStr :=
  [query1 catalog schema table_name,
   query2 catalog schema volume_name file_name table_name]

/-- Execute statements in order through the connection oracle, stopping at
the first raised exception; returns the statements actually submitted and
the overall outcome. -/
def runStatements (exec : PyStr → Except PyStr Unit) :
    List PyStr → List PyStr × Except PyStr Unit
  | [] => ([], .ok ())
  | q :: qs =>
    match exec q with
    | .error e => ([q], .error e)
    | .ok _ =>
      let rest := runStatements exec qs
      (q :: rest.1, rest.2)

/-- The body of the "Create Table from Uploaded File" handler: connect,
run the two statements, and render either the success message or
`"Error creating table: {e}"`; returns the submitted statements and the
message shown to the user. -/
def create_table_handler (connect : Except PyStr Unit)
    (exec : PyStr → Except PyStr Unit) (details : UploadDetails)
    (table_name_input : PyStr) : List PyStr × PyStr :=
  match connect with
  | .error e => ([], str "Error creating table: " ++ e)
  | .ok _ =>
    let stmts := create_table_from_volume_file details.catalog details.schema
      details.volume_name details.file_name (pyStrip table_name_input)
    let run := runStatements exec stmts
    match run.2 with
    | .ok _ =>
      (run.1, str "Table `" ++ pyStrip table_name_input ++
        str "` created successfully! ✅")
    | .error e => (run.1, str "Error creating table: " ++ e)

/-- One script run triggered by one interaction: the new session state and
the remote calls the run issues.  Handlers sit inside the widget gates of
the script (`if st.session_state.volume_check_success:` around the upload
widgets, `elif st.session_state.file_upload:` around the table-creation UI),
so an event whose gate is closed does nothing. -/
def runEvent (s : SessionState) (ev : Event) (env : Env) :
    SessionState × List RemoteCall :=
  match ev with
  | .rerun => (s, [])
  | .checkButton upload_volume_path =>
    let permission_result :=
      check_upload_permissions env.check (pyStrip upload_volume_path)
    if permission_result = validatedMsg then
      ({ s with volume_check_success := true }, [])
    else
      ({ s with volume_check_success := false }, [])
  | .uploadButton upload_volume_path file_name =>
    if s.volume_check_success then
      match splitDot (pyStrip upload_volume_path) with
      | [catalog, schema, volume_name] =>
        let path := volume_file_path catalog schema volume_name file_name
        match env.uploadResult with
        | .ok _ =>
          ({ s with
              file_upload := true
              upload_details := some
                { catalog := catalog
                  schema := schema
                  volume_name := volume_name
                  file_name := file_name
                  volume_file_path := path } },
           [.filesUpload path true])
        | .error _ =>
          ({ s with file_upload := false }, [.filesUpload path true])
      | _ => ({ s with file_upload := false }, [])
    else (s, [])
  | .createTableButton table_name_input =>
    if s.volume_check_success && s.file_upload then
      match s.upload_details with
      | none => (s, [])
      | some details =>
        let run := create_table_handler env.connect env.sqlExec details
          table_name_input
        (s, run.1.map .sqlExec)
    else (s, [])

/-- A whole UI session: fold `runEvent` over the interactions, collecting
all remote calls in order. -/
def runTrace (s : SessionState) : List (Event × Env) → SessionState × List RemoteCall
  | [] => (s, [])
  | (ev, env) :: rest =>
    let step := runEvent s ev env
    let tail := runTrace step.1 rest
    (tail.1, step.2 ++ tail.2)

/-- Does the grants response (as the check sees it) contain a write-capable
privilege?  `none` covers both `not grants` and absent assignments. -/
def hasWritePriv : Option EffectiveGrants → Bool
  | none => false
  | some g =>
    match g.privilege_assignments with
    | none => false
    | some assignments =>
      assignments.any fun assignment => assignment.privileges.any isWritePriv

/-- The check environment carries no write-capable grant for the principal
(including the case where the grants call itself raises). -/
def lacksWrite (cenv : CheckEnv) : Bool :=
  match cenv.grants with
  | .ok gopt => !hasWritePriv gopt
  | .error _ => true

/-- Lists with distinct heads are distinct. -/
theorem ne_of_head {l1 l2 : PyStr} {c1 c2 : Char} (h1 : l1.head? = some c1)
    (h2 : l2.head? = some c2) (hne : c1 ≠ c2) : l1 ≠ l2 := by
  intro h
  rw [h, h2] at h1
  exact hne (Option.some.inj h1.symm)

/-- The caught-exception message is never the success message. -/
theorem errMsg_ne_validated (e : PyStr) : str "Error: " ++ e ≠ validatedMsg :=
  @ne_of_head _ _ 'E' 'V' rfl rfl (by decide)

/-- The no-grants denial is never the success message. -/
theorem noGrantsMsg_ne_validated (u : User) : noGrantsMsg u ≠ validatedMsg :=
  @ne_of_head _ _ 'I' 'V' rfl rfl (by decide)

/-- The missing-privilege denial is never the success message. -/
theorem notFoundMsg_ne_validated : notFoundMsg ≠ validatedMsg :=
  @ne_of_head _ _ 'I' 'V' rfl rfl (by decide)

/-- When none of the three remote calls raises, the check returns the
success message exactly when the grants contain a write-capable privilege. -/
theorem check_success_iff (env : CheckEnv) (name : PyStr) (v : Volume)
    (u : User) (gopt : Option EffectiveGrants)
    (hv : env.volume_read name = .ok v) (hu : env.current_user = .ok u)
    (hg : env.grants = .ok gopt) :
    check_upload_permissions env name = validatedMsg ↔ hasWritePriv gopt := by
  unfold check_upload_permissions
  rw [hv, hu, hg]
  match gopt with
  | none =>
    simp [hasWritePriv, noGrantsMsg_ne_validated u]
  | some g =>
    match hga : g.privilege_assignments with
    | none =>
      simp [hasWritePriv, hga, noGrantsMsg_ne_validated u]
    | some [] =>
      simp [hasWritePriv, hga, noGrantsMsg_ne_validated u]
    | some (a :: as) =>
      by_cases hany : (a :: as).any fun assignment =>
        assignment.privileges.any isWritePriv
      · simp [hasWritePriv, hga, hany]
      · simp [hasWritePriv, hga, hany, notFoundMsg_ne_validated]

/-- When the check succeeds, the grants call returned without raising and
its response contains a write-capable privilege. -/
theorem check_validated_grants (cenv : CheckEnv) (name : PyStr)
    (h : check_upload_permissions cenv name = validatedMsg) :
    ∃ gopt, cenv.grants = .ok gopt ∧ hasWritePriv gopt = true := by
  unfold check_upload_permissions at h
  split at h
  · exact absurd h (errMsg_ne_validated _)
  split at h
  · exact absurd h (errMsg_ne_validated _)
  split at h
  · exact absurd h (errMsg_ne_validated _)
  rename_i gopt hg
  split at h
  · exact absurd h (noGrantsMsg_ne_validated _)
  rename_i g
  split at h
  · exact absurd h (noGrantsMsg_ne_validated _)
  · exact absurd h (noGrantsMsg_ne_validated _)
  rename_i assignments hpa
  split at h
  · rename_i hany
    refine ⟨some g, hg, ?_⟩
    simp only [hasWritePriv, hpa]
    exact hany
  · exact absurd h notFoundMsg_ne_validated

/-- Whatever the remote outcomes, a check against an environment carrying no
write-capable grant never returns the success message. -/
theorem lacksWrite_check_ne_validated (cenv : CheckEnv) (name : PyStr)
    (h : lacksWrite cenv = true) :
    check_upload_permissions cenv name ≠ validatedMsg := by
  intro hc
  obtain ⟨gopt, hg, hw⟩ := check_validated_grants cenv name hc
  have hfalse : lacksWrite cenv = false := by
    unfold lacksWrite
    rw [hg]
    simp [hw]
  rw [hfalse] at h
  exact Bool.false_ne_true h

/-- Dropping while `p` skips a prefix on which `p` holds everywhere. -/
theorem dropWhile_append_all {p : Char → Bool} {w t : List Char}
    (hw : w.all p = true) : (w ++ t).dropWhile p = t.dropWhile p := by
  induction w with
  | nil => rfl
  | cons c cs ih =>
    simp only [List.all_cons, Bool.and_eq_true] at hw
    simp [List.dropWhile_cons, hw.1, ih hw.2]

/-- Dropping while `p` consumes a list on which `p` holds everywhere. -/
theorem dropWhile_all_nil {p : Char → Bool} {w : List Char}
    (hw : w.all p = true) : w.dropWhile p = [] :=
  List.dropWhile_eq_nil_iff.mpr fun x hx => by
    exact List.all_eq_true.mp hw x hx

/-- Stripping ignores any all-whitespace padding around a string. -/
theorem pyStrip_pad {w1 w2 : PyStr}
    (h1 : w1.all Char.isWhitespace = true)
    (h2 : w2.all Char.isWhitespace = true) (s : PyStr) :
    pyStrip (w1 ++ s ++ w2) = pyStrip s := by
  unfold pyStrip
  rw [List.append_assoc, dropWhile_append_all h1]
  rcases hds : s.dropWhile Char.isWhitespace with _ | ⟨c, cs⟩
  · rw [List.dropWhile_append, hds]
    simp [dropWhile_all_nil h2]
  · rw [List.dropWhile_append, hds]
    simp only [List.isEmpty_cons, if_false, Bool.false_eq_true]
    rw [List.reverse_append,
      dropWhile_append_all (by rw [List.all_reverse]; exact h2)]

/-- When none of the three remote calls raises and no write-capable
privilege is present, the check returns one of the two denial messages. -/
theorem check_denial (cenv : CheckEnv) (name : PyStr) (v : Volume) (u : User)
    (gopt : Option EffectiveGrants) (hv : cenv.volume_read name = .ok v)
    (hu : cenv.current_user = .ok u) (hg : cenv.grants = .ok gopt)
    (hw : hasWritePriv gopt = false) :
    check_upload_permissions cenv name = noGrantsMsg u ∨
      check_upload_permissions cenv name = notFoundMsg := by
  unfold check_upload_permissions
  rw [hv, hu, hg]
  match gopt with
  | none =>
    left
    simp
  | some g =>
    match hga : g.privilege_assignments with
    | none =>
      left
      simp [hga]
    | some [] =>
      left
      simp [hga]
    | some (a :: as) =>
      have hany : ((a :: as).any fun assignment =>
          assignment.privileges.any fun privilege => isWritePriv privilege) = false := by
        simp only [hasWritePriv, hga] at hw
        simpa using hw
      right
      simp [hga, hany]

/-- A raised `w.volumes.read` is caught and rendered as an error string. -/
theorem check_err_volume (cenv : CheckEnv) (name : PyStr) (e : PyStr)
    (hv : cenv.volume_read name = .error e) :
    check_upload_permissions cenv name = str "Error: " ++ e := by
  unfold check_upload_permissions
  rw [hv]

/-- A raised `w.current_user.me` is caught and rendered as an error string. -/
theorem check_err_user (cenv : CheckEnv) (name : PyStr) (v : Volume) (e : PyStr)
    (hv : cenv.volume_read name = .ok v) (hu : cenv.current_user = .error e) :
    check_upload_permissions cenv name = str "Error: " ++ e := by
  unfold check_upload_permissions
  rw [hv, hu]

/-- A raised `w.grants.get_effective` is caught and rendered as an error
string. -/
theorem check_err_grants (cenv : CheckEnv) (name : PyStr) (v : Volume)
    (u : User) (e : PyStr) (hv : cenv.volume_read name = .ok v)
    (hu : cenv.current_user = .ok u) (hg : cenv.grants = .error e) :
    check_upload_permissions cenv name = str "Error: " ++ e := by
  unfold check_upload_permissions
  rw [hv, hu, hg]

/-- Trace invariant behind C1: from any state with the check flag down,
under environments carrying no write-capable grant, the flag stays down and
no file upload is ever issued. -/
theorem no_write_trace_invariant (tr : List (Event × Env)) (s : SessionState)
    (hs : s.volume_check_success = false)
    (h : ∀ p ∈ tr, lacksWrite p.2.check = true) :
    (runTrace s tr).1.volume_check_success = false ∧
      ∀ path ow, RemoteCall.filesUpload path ow ∉ (runTrace s tr).2 := by
  induction tr generalizing s with
  | nil =>
    simp [runTrace, hs]
  | cons p rest ih =>
    obtain ⟨ev, env⟩ := p
    have henv : lacksWrite env.check = true := h (ev, env) (by simp)
    have hrest : ∀ q ∈ rest, lacksWrite q.2.check = true :=
      fun q hq => h q (by simp [hq])
    cases ev with
    | rerun =>
      simp only [runTrace, runEvent]
      simpa using ih s hs hrest
    | checkButton path =>
      have hne := lacksWrite_check_ne_validated env.check (pyStrip path) henv
      have hstep : runEvent s (Event.checkButton path) env =
          ({ s with volume_check_success := false }, []) := by
        simp [runEvent, hne]
      simp only [runTrace, hstep]
      simpa using ih { s with volume_check_success := false } rfl hrest
    | uploadButton p f =>
      have hstep : runEvent s (Event.uploadButton p f) env = (s, []) := by
        simp [runEvent, hs]
      simp only [runTrace, hstep]
      simpa using ih s hs hrest
    | createTableButton t =>
      have hstep : runEvent s (Event.createTableButton t) env = (s, []) := by
        simp [runEvent, hs]
      simp only [runTrace, hstep]
      simpa using ih s hs hrest

/-- A volume response used in concrete scenarios. -/
def volumeOk : Volume := { full_name := str "main.marketing.raw_files" }

/-- A principal used in concrete scenarios. -/
def userOk : User := { user_name := str "user@example.com" }

/-- Effective grants carrying WRITE_VOLUME. -/
def grantsWrite : EffectiveGrants :=
  { privilege_assignments :=
      some [{ privileges := [{ privilege := { value := str "WRITE_VOLUME" } }] }] }

/-- Effective grants carrying only READ_VOLUME. -/
def grantsRead : EffectiveGrants :=
  { privilege_assignments :=
      some [{ privileges := [{ privilege := { value := str "READ_VOLUME" } }] }] }

/-- Check environment: all calls succeed, grants carry WRITE_VOLUME. -/
def checkEnvOk : CheckEnv :=
  { volume_read := fun _ => .ok volumeOk
    current_user := .ok userOk
    grants := .ok (some grantsWrite) }

/-- Check environment: all calls succeed, grants carry only READ_VOLUME. -/
def checkEnvNoWrite : CheckEnv :=
  { volume_read := fun _ => .ok volumeOk
    current_user := .ok userOk
    grants := .ok (some grantsRead) }

/-- Check environment whose `w.volumes.read` raises. -/
def checkEnvErr : CheckEnv :=
  { volume_read := fun _ => .error (str "boom")
    current_user := .ok userOk
    grants := .ok none }

/-- Run environment where every remote call succeeds and grants carry
WRITE_VOLUME. -/
def envOk : Env :=
  { check := checkEnvOk
    uploadResult := .ok ()
    connect := .ok ()
    sqlExec := fun _ => .ok () }

/-- Run environment where every remote call succeeds but grants carry only
READ_VOLUME. -/
def envNoWrite : Env :=
  { check := checkEnvNoWrite
    uploadResult := .ok ()
    connect := .ok ()
    sqlExec := fun _ => .ok () }

/-- C4: `check_upload_permissions` is a total function into strings.  When
no remote call raises, it returns the exact success message if and only if
the effective grants contain a privilege valued ALL_PRIVILEGES or
WRITE_VOLUME, and otherwise one of the two descriptive denial messages;
when a remote call raises, the exception is caught and rendered as
`"Error: {e}"`. -/
theorem C4_check_upload_permissions_spec (cenv : CheckEnv) (name : PyStr) :
    (∀ v u gopt, cenv.volume_read name = .ok v → cenv.current_user = .ok u →
      cenv.grants = .ok gopt →
      (check_upload_permissions cenv name = validatedMsg ↔
        hasWritePriv gopt = true) ∧
      (hasWritePriv gopt = false →
        check_upload_permissions cenv name = noGrantsMsg u ∨
        check_upload_permissions cenv name = notFoundMsg)) ∧
    (∀ e, cenv.volume_read name = .error e →
      check_upload_permissions cenv name = str "Error: " ++ e) ∧
    (∀ v e, cenv.volume_read name = .ok v → cenv.current_user = .error e →
      check_upload_permissions cenv name = str "Error: " ++ e) ∧
    (∀ v u e, cenv.volume_read name = .ok v → cenv.current_user = .ok u →
      cenv.grants = .error e →
      check_upload_permissions cenv name = str "Error: " ++ e) := by
  refine ⟨?_, ?_, ?_, ?_⟩
  · intro v u gopt hv hu hg
    exact ⟨check_success_iff cenv name v u gopt hv hu hg,
      check_denial cenv name v u gopt hv hu hg⟩
  · intro e hv
    exact check_err_volume cenv name e hv
  · intro v e hv hu
    exact check_err_user cenv name v e hv hu
  · intro v u e hv hu hg
    exact check_err_grants cenv name v u e hv hu hg

/-- Witness for C4 at concrete environments: the success iff on a
write-capable environment, and the error rendering on a raising one. -/
theorem C4_witness :
    ((check_upload_permissions checkEnvOk (str "main.marketing.raw_files") =
        validatedMsg ↔ hasWritePriv (some grantsWrite) = true) ∧
      check_upload_permissions checkEnvErr (str "x") = str "Error: " ++ str "boom") :=
  ⟨((C4_check_upload_permissions_spec checkEnvOk
      (str "main.marketing.raw_files")).1 volumeOk userOk (some grantsWrite)
      rfl rfl rfl).1,
   (C4_check_upload_permissions_spec checkEnvErr (str "x")).2.1 (str "boom") rfl⟩

/-- C1: in any UI session all of whose permission checks run against
effective grants containing neither ALL_PRIVILEGES nor WRITE_VOLUME, the
`volume_check_success` flag never becomes true — so the upload widgets are
never rendered — and no `w.files.upload` call is ever issued. -/
theorem C1_no_upload_without_write_grant (tr : List (Event × Env))
    (h : ∀ p ∈ tr, lacksWrite p.2.check = true) :
    (runTrace initialState tr).1.volume_check_success = false ∧
      ∀ path ow, RemoteCall.filesUpload path ow ∉ (runTrace initialState tr).2 :=
  no_write_trace_invariant tr initialState rfl h

/-- A session of a read-only principal: check, then attempted upload, then
attempted table creation. -/
def trNoWrite : List (Event × Env) :=
  [(.checkButton (str "main.marketing.raw_files"), envNoWrite),
   (.uploadButton (str "main.marketing.raw_files") (str "data.csv"), envNoWrite),
   (.createTableButton (str "t1"), envNoWrite)]

/-- Witness for C1 on a concrete read-only session. -/
theorem C1_witness :
    (runTrace initialState trNoWrite).1.volume_check_success = false ∧
      ∀ path ow, RemoteCall.filesUpload path ow ∉ (runTrace initialState trNoWrite).2 :=
  C1_no_upload_without_write_grant trNoWrite (by decide)

/-- C2: SQL statements are issued only in runs that start with the
`file_upload` flag (and the check flag) set, and `file_upload` turns true
only in a run whose `w.files.upload` call completed, which also records the
upload details that table creation later consumes. -/
theorem C2_table_creation_gated_on_upload :
    (∀ s ev env stmt, RemoteCall.sqlExec stmt ∈ (runEvent s ev env).2 →
      s.file_upload = true ∧ s.volume_check_success = true) ∧
    (∀ s ev env, s.file_upload = false →
      (runEvent s ev env).1.file_upload = true →
      ∃ p f catalog schema volume_name,
        ev = .uploadButton p f ∧ env.uploadResult = .ok () ∧
        splitDot (pyStrip p) = [catalog, schema, volume_name] ∧
        RemoteCall.filesUpload (volume_file_path catalog schema volume_name f)
          true ∈ (runEvent s ev env).2 ∧
        (runEvent s ev env).1.upload_details = some
          { catalog := catalog
            schema := schema
            volume_name := volume_name
            file_name := f
            volume_file_path := volume_file_path catalog schema volume_name f }) := by
  constructor
  · intro s ev env stmt hmem
    cases ev with
    | rerun => simp [runEvent] at hmem
    | checkButton p =>
      simp only [runEvent] at hmem
      split at hmem <;> simp at hmem
    | uploadButton p f =>
      simp only [runEvent] at hmem
      split at hmem
      · split at hmem
        · split at hmem <;> simp at hmem
        · simp at hmem
      · simp at hmem
    | createTableButton t =>
      simp only [runEvent] at hmem
      split at hmem
      · rename_i hgate
        simp only [Bool.and_eq_true] at hgate
        exact ⟨hgate.2, hgate.1⟩
      · simp at hmem
  · intro s ev env h0 h1
    cases ev with
    | rerun => simp [runEvent, h0] at h1
    | checkButton p =>
      simp only [runEvent] at h1
      split at h1 <;> simp [h0] at h1
    | createTableButton t =>
      simp only [runEvent] at h1
      split at h1
      · split at h1 <;> simp [h0] at h1
      · simp [h0] at h1
    | uploadButton p f =>
      simp only [runEvent] at h1
      split at h1
      · rename_i hvcs
        split at h1
        · rename_i catalog schema volume_name hsplit
          split at h1
          · rename_i u hupload
            refine ⟨p, f, catalog, schema, volume_name, rfl, ?_, hsplit, ?_, ?_⟩
            · cases u
              exact hupload
            · simp [runEvent, hvcs, hsplit, hupload]
            · simp [runEvent, hvcs, hsplit, hupload]
          · simp [h0] at h1
        · simp [h0] at h1
      · simp [h0] at h1

/-- An upload-details record from a completed upload of `data.csv` to
`main.marketing.raw_files`. -/
def details0 : UploadDetails :=
  { catalog := str "main"
    schema := str "marketing"
    volume_name := str "raw_files"
    file_name := str "data.csv"
    volume_file_path := str "/Volumes/main/marketing/raw_files/data.csv" }

/-- A session state right after a successful check, before any upload. -/
def stateChecked : SessionState :=
  { volume_check_success := true, file_upload := false, upload_details := none }

/-- A session state after a successful check and a successful upload. -/
def stateUploaded : SessionState :=
  { volume_check_success := true, file_upload := true,
    upload_details := some details0 }

/-- Counterexample to C8 as stated: pressing the permission-check button on
a session that already recorded a successful upload leaves `file_upload`
true — the recorded upload-success state survives the new check. -/
theorem C8_counterexample :
    stateUploaded.file_upload = true ∧
      (runEvent stateUploaded
        (.checkButton (str "main.marketing.raw_files")) envOk).1.file_upload = true := by
  decide

/-- C8 (amended): a press of the permission-check button sets
`volume_check_success` from the new check's result, but it does not touch
`file_upload` or `upload_details`, so upload-success state recorded earlier
in the session survives the new check; the run issues no tracked remote
call. -/
theorem C8_check_press_sets_only_check_flag (s : SessionState) (p : PyStr)
    (env : Env) :
    ((runEvent s (.checkButton p) env).1.volume_check_success = true ↔
      check_upload_permissions env.check (pyStrip p) = validatedMsg) ∧
    (runEvent s (.checkButton p) env).1.file_upload = s.file_upload ∧
    (runEvent s (.checkButton p) env).1.upload_details = s.upload_details ∧
    (runEvent s (.checkButton p) env).2 = [] := by
  by_cases hc : check_upload_permissions env.check (pyStrip p) = validatedMsg <;>
    simp [runEvent, hc]

/-- C9: an upload attempt whose transfer call raises leaves `file_upload`
false and `upload_details` untouched (stale), and from the resulting state
the table-creation button issues no SQL statement. -/
theorem C9_failed_upload_revokes (s : SessionState) (p f e t : PyStr)
    (env env2 : Env) (hvcs : s.volume_check_success = true)
    (hup : env.uploadResult = .error e) :
    (runEvent s (.uploadButton p f) env).1.file_upload = false ∧
    (runEvent s (.uploadButton p f) env).1.upload_details = s.upload_details ∧
    (runEvent (runEvent s (.uploadButton p f) env).1
      (.createTableButton t) env2).2 = [] := by
  have h1 : (runEvent s (.uploadButton p f) env).1.file_upload = false ∧
      (runEvent s (.uploadButton p f) env).1.upload_details = s.upload_details := by
    simp only [runEvent, hvcs, if_true]
    split
    · simp [hup]
    · simp
  refine ⟨h1.1, h1.2, ?_⟩
  set s2 := (runEvent s (.uploadButton p f) env).1 with hs2
  have hfu : s2.file_upload = false := h1.1
  simp [runEvent, hfu]

/-- Environment whose file-transfer call raises. -/
def envUploadFail : Env :=
  { check := checkEnvOk
    uploadResult := .error (str "io error")
    connect := .ok ()
    sqlExec := fun _ => .ok () }

/-- Witness for C9: a failed re-upload in a session that had already
uploaded successfully revokes table creation. -/
theorem C9_witness :
    (runEvent stateUploaded (.uploadButton (str "main.marketing.raw_files")
      (str "data.csv")) envUploadFail).1.file_upload = false ∧
    (runEvent stateUploaded (.uploadButton (str "main.marketing.raw_files")
      (str "data.csv")) envUploadFail).1.upload_details = stateUploaded.upload_details ∧
    (runEvent (runEvent stateUploaded (.uploadButton (str "main.marketing.raw_files")
      (str "data.csv")) envUploadFail).1 (.createTableButton (str "t1")) envOk).2 = [] :=
  C9_failed_upload_revokes stateUploaded (str "main.marketing.raw_files")
    (str "data.csv") (str "io error") (str "t1") envUploadFail envOk rfl rfl

/-- Witness for C2: a concrete run that turns `file_upload` on is an upload
run with a completed transfer that records the details. -/
theorem C2_witness :
    ∃ p f catalog schema volume_name,
      (Event.uploadButton (str "main.marketing.raw_files") (str "data.csv") :
        Event) = .uploadButton p f ∧
      envOk.uploadResult = .ok () ∧
      splitDot (pyStrip p) = [catalog, schema, volume_name] ∧
      RemoteCall.filesUpload (volume_file_path catalog schema volume_name f)
        true ∈ (runEvent stateChecked
          (.uploadButton (str "main.marketing.raw_files") (str "data.csv")) envOk).2 ∧
      (runEvent stateChecked
          (.uploadButton (str "main.marketing.raw_files") (str "data.csv")) envOk).1.upload_details =
        some
          { catalog := catalog
            schema := schema
            volume_name := volume_name
            file_name := f
            volume_file_path := volume_file_path catalog schema volume_name f } :=
  C2_table_creation_gated_on_upload.2 stateChecked
    (.uploadButton (str "main.marketing.raw_files") (str "data.csv")) envOk
    rfl (by decide)

/-- Counterexample to C3 as stated: the identifier `a..b` does not split
into three non-empty segments (the middle one is empty), yet the upload
handler still issues the remote transfer call. -/
theorem C3_counterexample :
    splitDot (pyStrip (str "a..b")) = [str "a", [], str "b"] ∧
      (runEvent stateChecked (.uploadButton (str "a..b") (str "data.csv"))
        envOk).2 = [.filesUpload (str "/Volumes/a//b/data.csv") true] := by
  decide

/-- C3 (amended): once the upload widgets are reachable, the upload handler
issues the remote transfer call exactly when the stripped identifier splits
on `.` into exactly three segments (empty segments allowed); with any other
number of segments the tuple unpacking raises, the handler fails with no
remote call attempted, and `file_upload` is set false. -/
theorem C3_upload_gated_on_three_segments (s : SessionState) (p f : PyStr)
    (env : Env) (hvcs : s.volume_check_success = true) :
    (∀ catalog schema volume_name,
      splitDot (pyStrip p) = [catalog, schema, volume_name] →
      (runEvent s (.uploadButton p f) env).2 =
        [.filesUpload (volume_file_path catalog schema volume_name f) true]) ∧
    ((splitDot (pyStrip p)).length ≠ 3 →
      (runEvent s (.uploadButton p f) env).2 = [] ∧
      (runEvent s (.uploadButton p f) env).1.file_upload = false) := by
  constructor
  · intro catalog schema volume_name hsplit
    rcases henv : env.uploadResult with e | u <;>
      simp [runEvent, hvcs, hsplit, henv]
  · intro hlen
    simp only [runEvent, hvcs, if_true]
    split
    · rename_i catalog schema volume_name hsplit
      exact absurd (by rw [hsplit]; rfl) hlen
    · simp

/-- Witness for C3: a three-segment identifier issues the transfer call; a
two-segment identifier issues no remote call and clears `file_upload`. -/
theorem C3_witness :
    (runEvent stateChecked (.uploadButton (str "main.marketing.raw_files")
        (str "data.csv")) envOk).2 =
      [.filesUpload (volume_file_path (str "main") (str "marketing")
        (str "raw_files") (str "data.csv")) true] ∧
    (runEvent stateChecked (.uploadButton (str "main.marketing")
        (str "data.csv")) envOk).2 = [] ∧
    (runEvent stateChecked (.uploadButton (str "main.marketing")
        (str "data.csv")) envOk).1.file_upload = false :=
  ⟨(C3_upload_gated_on_three_segments stateChecked
      (str "main.marketing.raw_files") (str "data.csv") envOk rfl).1
      (str "main") (str "marketing") (str "raw_files") (by decide),
   ((C3_upload_gated_on_three_segments stateChecked (str "main.marketing")
      (str "data.csv") envOk rfl).2 (by decide)).1,
   ((C3_upload_gated_on_three_segments stateChecked (str "main.marketing")
      (str "data.csv") envOk rfl).2 (by decide)).2⟩

/-- Regrouping lemma: the `FROM '` literal followed by the volume-path
prefix is the fused literal the source f-string contains. -/
theorem from_quote_volumes (z : PyStr) :
    str "\n        FROM '" ++ (str "/Volumes/" ++ z) =
      str "\n        FROM '/Volumes/" ++ z := by
  rw [← List.append_assoc]
  rfl

/-- C5: `create_table_from_volume_file` issues exactly two statements in
order: first `CREATE TABLE IF NOT EXISTS catalog.schema.table_name USING
DELTA`, then `COPY INTO` the same three-part table name `FROM` the volume
file path, with `FILEFORMAT = CSV`, format options `header` and
`inferSchema` enabled, and copy option `mergeSchema` enabled. -/
theorem C5_create_table_two_statements
    (catalog schema volume_name file_name table_name : PyStr) :
    create_table_from_volume_file catalog schema volume_name file_name
        table_name =
      [str "\n        CREATE TABLE IF NOT EXISTS " ++
         (catalog ++ str "." ++ schema ++ str "." ++ table_name) ++
         str "\n        USING DELTA;\n        ",
       str "COPY INTO " ++
         (catalog ++ str "." ++ schema ++ str "." ++ table_name) ++
         str "\n        FROM '" ++
         volume_file_path catalog schema volume_name file_name ++
         str "'\n        FILEFORMAT = CSV\n        FORMAT_OPTIONS ('header' = 'true', 'inferSchema' = 'true')\n        COPY_OPTIONS ('mergeSchema' = 'true');\n        "] := by
  simp only [create_table_from_volume_file, query1, query2, volume_file_path,
    List.cons.injEq, and_true]
  constructor
  · simp [List.append_assoc]
  · simp [List.append_assoc, from_quote_volumes]

/-- C6: table creation is not atomic.  If the create-if-not-exists
statement succeeds and the bulk-load statement raises, the handler submits
exactly those two statements — no compensating or rollback statement — and
surfaces the failure as the generic `"Error creating table: {e}"` message,
identical to the message produced when the first statement fails with the
same exception, so partial completion is not reported distinctly. -/
theorem C6_no_rollback_on_partial_failure (details : UploadDetails)
    (t e : PyStr) (exec : PyStr → Except PyStr Unit)
    (h1 : exec (query1 details.catalog details.schema (pyStrip t)) = .ok ())
    (h2 : exec (query2 details.catalog details.schema details.volume_name
      details.file_name (pyStrip t)) = .error e) :
    (create_table_handler (.ok ()) exec details t).1 =
      [query1 details.catalog details.schema (pyStrip t),
       query2 details.catalog details.schema details.volume_name
         details.file_name (pyStrip t)] ∧
    (create_table_handler (.ok ()) exec details t).2 =
      str "Error creating table: " ++ e ∧
    ∀ exec2, exec2 (query1 details.catalog details.schema (pyStrip t)) =
        .error e →
      (create_table_handler (.ok ()) exec2 details t).2 =
        (create_table_handler (.ok ()) exec details t).2 := by
  have hrun : runStatements exec (create_table_from_volume_file details.catalog
      details.schema details.volume_name details.file_name (pyStrip t)) =
      ([query1 details.catalog details.schema (pyStrip t),
        query2 details.catalog details.schema details.volume_name
          details.file_name (pyStrip t)], .error e) := by
    simp [runStatements, create_table_from_volume_file, h1, h2]
  refine ⟨?_, ?_, ?_⟩
  · simp [create_table_handler, hrun]
  · simp [create_table_handler, hrun]
  · intro exec2 hx
    have hL : (create_table_handler (.ok ()) exec2 details t).2 =
        str "Error creating table: " ++ e := by
      simp [create_table_handler, runStatements,
        create_table_from_volume_file, hx]
    have hR : (create_table_handler (.ok ()) exec details t).2 =
        str "Error creating table: " ++ e := by
      simp [create_table_handler, hrun]
    rw [hL, hR]

/-- A statement-execution oracle for which only the bulk-load statement of
the `details0`/`t1` table creation raises. -/
def execFailCopy : PyStr → Except PyStr Unit := fun q =>
  if q = query2 (str "main") (str "marketing") (str "raw_files")
      (str "data.csv") (str "t1") then .error (str "load failed") else .ok ()

set_option maxRecDepth 100000 in
/-- Witness for C6 on a concrete partial failure. -/
theorem C6_witness :
    (create_table_handler (.ok ()) execFailCopy details0 (str "t1")).1 =
      [query1 (str "main") (str "marketing") (str "t1"),
       query2 (str "main") (str "marketing") (str "raw_files")
         (str "data.csv") (str "t1")] ∧
    (create_table_handler (.ok ()) execFailCopy details0 (str "t1")).2 =
      str "Error creating table: " ++ str "load failed" := by
  have h := C6_no_rollback_on_partial_failure details0 (str "t1")
    (str "load failed") execFailCopy (by rfl) (by rfl)
  exact ⟨h.1, h.2.1⟩

/-- C7: once the identifier splits into `[catalog, schema, volume_name]`,
the upload handler issues exactly one transfer call, to the concatenated
path `/Volumes/catalog/schema/volume_name/file_name`, with the overwrite
flag set — and the issued call is the same whatever the session state and
remote outcomes, so two uploads with the same identifier and filename
target the same path. -/
theorem C7_upload_path_deterministic (s : SessionState)
    (p f catalog schema volume_name : PyStr) (env : Env)
    (hvcs : s.volume_check_success = true)
    (hsplit : splitDot (pyStrip p) = [catalog, schema, volume_name]) :
    (runEvent s (.uploadButton p f) env).2 =
      [.filesUpload (volume_file_path catalog schema volume_name f) true] ∧
    ∀ s2 env2, s2.volume_check_success = true →
      (runEvent s2 (.uploadButton p f) env2).2 =
        (runEvent s (.uploadButton p f) env).2 := by
  have key : ∀ s3 env3, s3.volume_check_success = true →
      (runEvent s3 (.uploadButton p f) env3).2 =
        [.filesUpload (volume_file_path catalog schema volume_name f) true] := by
    intro s3 env3 h3
    rcases henv : env3.uploadResult with e | u <;>
      simp [runEvent, h3, hsplit, henv]
  refine ⟨key s env hvcs, fun s2 env2 h2 => ?_⟩
  rw [key s2 env2 h2, key s env hvcs]

/-- Witness for C7: `main.marketing.raw_files` with `data.csv` targets
`/Volumes/main/marketing/raw_files/data.csv`, from two different session
states and environments. -/
theorem C7_witness :
    (runEvent stateChecked (.uploadButton (str "main.marketing.raw_files")
        (str "data.csv")) envUploadFail).2 =
      [.filesUpload (volume_file_path (str "main") (str "marketing")
        (str "raw_files") (str "data.csv")) true] ∧
    volume_file_path (str "main") (str "marketing") (str "raw_files")
        (str "data.csv") =
      str "/Volumes/main/marketing/raw_files/data.csv" ∧
    (runEvent stateUploaded (.uploadButton (str "main.marketing.raw_files")
        (str "data.csv")) envOk).2 =
      (runEvent stateChecked (.uploadButton (str "main.marketing.raw_files")
        (str "data.csv")) envUploadFail).2 :=
  ⟨(C7_upload_path_deterministic stateChecked (str "main.marketing.raw_files")
      (str "data.csv") (str "main") (str "marketing") (str "raw_files")
      envUploadFail rfl (by decide)).1,
   by decide,
   (C7_upload_path_deterministic stateChecked (str "main.marketing.raw_files")
      (str "data.csv") (str "main") (str "marketing") (str "raw_files")
      envUploadFail rfl (by decide)).2 stateUploaded envOk rfl⟩

/-- C10: surrounding whitespace on the user text inputs is immaterial: a
permission check, an upload, or a table creation run on a padded input has
exactly the same effect (state and remote calls) as on the stripped input,
because the handlers strip the volume identifier before the check and the
split, and strip the table name before interpolation. -/
theorem C10_whitespace_insensitive (s : SessionState) (env : Env)
    (w1 w2 : PyStr) (h1 : w1.all Char.isWhitespace = true)
    (h2 : w2.all Char.isWhitespace = true) :
    (∀ p, runEvent s (.checkButton (w1 ++ p ++ w2)) env =
      runEvent s (.checkButton p) env) ∧
    (∀ p f, runEvent s (.uploadButton (w1 ++ p ++ w2) f) env =
      runEvent s (.uploadButton p f) env) ∧
    (∀ t, runEvent s (.createTableButton (w1 ++ t ++ w2)) env =
      runEvent s (.createTableButton t) env) := by
  refine ⟨fun p => ?_, fun p f => ?_, fun t => ?_⟩
  · simp only [runEvent, pyStrip_pad h1 h2]
  · simp only [runEvent, pyStrip_pad h1 h2]
  · simp only [runEvent, create_table_handler, pyStrip_pad h1 h2]

/-- Witness for C10: padding the identifier with blanks does not change a
check run. -/
theorem C10_witness :
    runEvent stateChecked
        (.checkButton (str " " ++ str "main.marketing.raw_files" ++ str " "))
        envOk =
      runEvent stateChecked (.checkButton (str "main.marketing.raw_files"))
        envOk :=
  (C10_whitespace_insensitive stateChecked envOk (str " ") (str " ")
    (by decide) (by decide)).1 (str "main.marketing.raw_files")
